import Mathlib

/-!
Formal model of the geographic reference API (Country → Province → City → Person)
behind role-gated authentication.  The service-layer implementation files are not
present in the sources (only their unit-test and end-to-end-test suites are), so
every operation below is modelled from the specification document, faithful to
its component-design sections (§3 data model, §4.1 EntityResolver, §4.2
HierarchyGuard, §4.3 CredentialGate, §4.4 RoleGuard), and cross-checked against
the behaviour asserted by the unit-test suites.  Geographic coordinates are only
ever compared for equality by the services, so they are modelled as integers (a
fixed-point reading of the decimal degrees).  The relational store is modelled
as an explicit in-memory state threaded through every operation; a thrown HTTP
exception is modelled as an error result returned together with the unchanged
state, so "nothing was persisted" is visible as the state component being the
input state.
-/

/-- Modelled from the spec: the error taxonomy of §7 (the concrete exception
classes of the absent service sources). -/
inductive ApiError
  | notFound
  | conflict
  | badRequest
  | unauthorized
  | forbidden
  | internalError
  deriving Repr, DecidableEq

/-- Modelled from the spec: §3, `role ∈ {USER, MODERATOR, ADMIN}` (the
person-entity source is absent). -/
inductive PersonRole
  | user
  | moderator
  | admin
  deriving Repr, DecidableEq

/-- Modelled from the spec: §3 Country `{id, name, code?}` (the country-entity
source is absent). -/
structure Country where
  id : Nat
  name : String
  code : Option String
  deriving Repr, DecidableEq

/-- Modelled from the spec: §3 Province `{id, name, latitude, longitude,
countryId}` (the province-entity source is absent). -/
structure Province where
  id : Nat
  name : String
  latitude : Int
  longitude : Int
  countryId : Nat
  deriving Repr, DecidableEq

/-- Modelled from the spec: §3 City `{id, name, latitude, longitude,
provinceId}` (the city-entity source is absent). -/
structure City where
  id : Nat
  name : String
  latitude : Int
  longitude : Int
  provinceId : Nat
  deriving Repr, DecidableEq

/-- Modelled from the spec: §3 Person `{id, firstName, lastName, email,
passwordHash, role, cityId?}` (the person-entity source is absent). -/
structure Person where
  id : Nat
  firstName : String
  lastName : String
  email : String
  passwordHash : String
  role : PersonRole
  cityId : Option Nat
  deriving Repr, DecidableEq

/-- Modelled from the spec: §2 RecordStore, the single relational store shared
by all handlers, as one in-memory state.  `nextId` models the id sequence of
the storage layer. -/
structure Store where
  countries : List Country
  provinces : List Province
  cities : List City
  persons : List Person
  nextId : Nat
  deriving Repr, DecidableEq

/-- Modelled from the spec: RecordStore point lookup by id for countries. -/
def findCountryById (s : Store) (i : Nat) : Option Country :=
  s.countries.find? (fun c => c.id == i)

/-- Modelled from the spec: RecordStore lookup by the Country name uniqueness
key (§4.1 step 2). -/
def findCountryByName (s : Store) (n : String) : Option Country :=
  s.countries.find? (fun c => c.name == n)

/-- Modelled from the spec: RecordStore lookup by the Country code uniqueness
key (§4.1 step 2). -/
def findCountryByCode (s : Store) (cd : String) : Option Country :=
  s.countries.find? (fun c => c.code == some cd)

/-- Modelled from the spec: RecordStore point lookup by id for provinces. -/
def findProvinceById (s : Store) (i : Nat) : Option Province :=
  s.provinces.find? (fun p => p.id == i)

/-- Modelled from the spec: RecordStore lookup by the Province coordinate
uniqueness key, latitude+longitude (§4.1 step 2). -/
def findProvinceByCoords (s : Store) (lat lng : Int) : Option Province :=
  s.provinces.find? (fun p => p.latitude == lat && p.longitude == lng)

/-- Modelled from the spec: RecordStore point lookup by id for cities. -/
def findCityById (s : Store) (i : Nat) : Option City :=
  s.cities.find? (fun c => c.id == i)

/-- Modelled from the spec: RecordStore lookup by the City coordinate
uniqueness key, latitude+longitude (§4.1 step 2). -/
def findCityByCoords (s : Store) (lat lng : Int) : Option City :=
  s.cities.find? (fun c => c.latitude == lat && c.longitude == lng)

/-- Modelled from the spec: RecordStore point lookup by id for persons. -/
def findPersonById (s : Store) (i : Nat) : Option Person :=
  s.persons.find? (fun p => p.id == i)

/-- Modelled from the spec: RecordStore lookup by the Person email uniqueness
key (§4.3). -/
def findPersonByEmail (s : Store) (e : String) : Option Person :=
  s.persons.find? (fun p => p.email == e)

/-- Modelled from the spec: RecordStore insert of a country row. -/
def insertCountry (s : Store) (c : Country) : Store :=
  ⟨s.countries ++ [c], s.provinces, s.cities, s.persons, s.nextId + 1⟩

/-- Modelled from the spec: RecordStore insert of a province row. -/
def insertProvince (s : Store) (p : Province) : Store :=
  ⟨s.countries, s.provinces ++ [p], s.cities, s.persons, s.nextId + 1⟩

/-- Modelled from the spec: RecordStore insert of a city row. -/
def insertCity (s : Store) (c : City) : Store :=
  ⟨s.countries, s.provinces, s.cities ++ [c], s.persons, s.nextId + 1⟩

/-- Modelled from the spec: RecordStore full replace of the country row with
the same id. -/
def saveCountry (s : Store) (c : Country) : Store :=
  ⟨s.countries.map (fun d => if d.id = c.id then c else d),
   s.provinces, s.cities, s.persons, s.nextId⟩

/-- Modelled from the spec: RecordStore full replace of the province row with
the same id. -/
def saveProvince (s : Store) (p : Province) : Store :=
  ⟨s.countries, s.provinces.map (fun q => if q.id = p.id then p else q),
   s.cities, s.persons, s.nextId⟩

/-- Modelled from the spec: RecordStore full replace of the city row with the
same id. -/
def saveCity (s : Store) (c : City) : Store :=
  ⟨s.countries, s.provinces, s.cities.map (fun d => if d.id = c.id then c else d),
   s.persons, s.nextId⟩

/-- Modelled from the spec: RecordStore full replace of the person row with the
same id. -/
def savePerson (s : Store) (p : Person) : Store :=
  ⟨s.countries, s.provinces, s.cities,
   s.persons.map (fun q => if q.id = p.id then p else q), s.nextId⟩

/-- Modelled from the spec: RecordStore delete of the country row with the
given id. -/
def deleteCountry (s : Store) (i : Nat) : Store :=
  ⟨s.countries.filter (fun d => d.id != i), s.provinces, s.cities, s.persons, s.nextId⟩

/-- Modelled from the spec: RecordStore delete of the province row with the
given id. -/
def deleteProvince (s : Store) (i : Nat) : Store :=
  ⟨s.countries, s.provinces.filter (fun q => q.id != i), s.cities, s.persons, s.nextId⟩

/-- Modelled from the spec: RecordStore delete of the city row with the given
id. -/
def deleteCity (s : Store) (i : Nat) : Store :=
  ⟨s.countries, s.provinces, s.cities.filter (fun d => d.id != i), s.persons, s.nextId⟩

/-- Modelled from the spec: the storage layer's answer to an insert attempt
(§4.1 steps 3 and 4, §5).  `ok` means the insert commits; `fail code raceView`
means the storage layer rejects the insert with the given error code, in which
case `raceView` is the table state the recovery re-query observes (a concurrent
creator may have committed between the probe and the insert). -/
inductive InsertOutcome
  | ok
  | fail (code : String) (raceView : Store)
  deriving Repr, DecidableEq

/-- Creation payload for a Country (mirrors CreateCountryDto of the sources). -/
structure CreateCountryDto where
  name : String
  code : Option String
  deriving Repr, DecidableEq

/-- Creation payload for a Province (mirrors CreateProvinceDto of the sources). -/
structure CreateProvinceDto where
  name : String
  countryId : Nat
  latitude : Int
  longitude : Int
  deriving Repr, DecidableEq

/-- Creation payload for a City (mirrors CreateCityDto of the sources). -/
structure CreateCityDto where
  name : String
  latitude : Int
  longitude : Int
  provinceId : Nat
  deriving Repr, DecidableEq

/-- Full-update payload for a Country (mirrors UpdatePutCountryDto). -/
structure UpdatePutCountryDto where
  name : String
  code : Option String
  deriving Repr, DecidableEq

/-- Partial-update payload for a Country (mirrors UpdateCountryDto); a `none`
field is absent from the PATCH body. -/
structure UpdateCountryDto where
  name : Option String
  code : Option String
  deriving Repr, DecidableEq

/-- Full-update payload for a Province (mirrors UpdatePutProvinceDto). -/
structure UpdatePutProvinceDto where
  name : String
  countryId : Nat
  latitude : Int
  longitude : Int
  deriving Repr, DecidableEq

/-- Partial-update payload for a Province (mirrors UpdateProvinceDto); a `none`
field is absent from the PATCH body. -/
structure UpdateProvinceDto where
  name : Option String
  countryId : Option Nat
  latitude : Option Int
  longitude : Option Int
  deriving Repr, DecidableEq

/-- Full-update payload for a City (mirrors UpdatePutCityDto). -/
structure UpdatePutCityDto where
  name : String
  latitude : Int
  longitude : Int
  provinceId : Nat
  deriving Repr, DecidableEq

/-- Partial-update payload for a City (mirrors UpdateCityDto); a `none` field
is absent from the PATCH body. -/
structure UpdateCityDto where
  name : Option String
  latitude : Option Int
  longitude : Option Int
  provinceId : Option Nat
  deriving Repr, DecidableEq

/-- Partial-update payload for a Person (mirrors UpdatePatchPersonDto); a
`none` field is absent from the PATCH body. -/
structure UpdatePatchPersonDto where
  firstName : Option String
  lastName : Option String
  email : Option String
  password : Option String
  role : Option PersonRole
  cityId : Option Nat
  deriving Repr, DecidableEq

/-- Modelled from the spec: CountriesService.create (country.service.ts is
absent from the sources; only its unit tests are present).  §4.1: probe the
name uniqueness key, then the code uniqueness key; if either finds a row,
return the existing row (idempotent creation); otherwise insert, and on a
unique-constraint violation (code 23505) re-query once by the same keys,
returning the now-existing row, or Conflict if the re-query finds nothing. -/
def CountriesService.create (dto : CreateCountryDto) (outcome : InsertOutcome)
    (s : Store) : Except ApiError Country × Store :=
  match findCountryByName s dto.name with
  | some existing => (.ok existing, s)
  | none =>
    match dto.code.bind (fun cd => findCountryByCode s cd) with
    | some existing => (.ok existing, s)
    | none =>
      match outcome with
      | .ok =>
        let c : Country := ⟨s.nextId, dto.name, dto.code⟩
        (.ok c, insertCountry s c)
      | .fail code raceView =>
        if code = ("23505") then
          match (match findCountryByName raceView dto.name with
                 | some c => some c
                 | none => dto.code.bind (fun cd => findCountryByCode raceView cd)) with
          | some c => (.ok c, raceView)
          | none => (.error .conflict, raceView)
        else (.error .internalError, raceView)

/-- Modelled from the spec: ProvincesService.create (province.service.ts is
absent from the sources; only its unit tests are present).  §4.1: validate the
declared parent Country exists (NotFound otherwise), probe the coordinate
uniqueness key and return the existing row if found, otherwise insert; on a
unique-constraint violation (code 23505) re-query once by the same key,
returning the now-existing row, or Conflict if the re-query finds nothing. -/
def ProvincesService.create (dto : CreateProvinceDto) (outcome : InsertOutcome)
    (s : Store) : Except ApiError Province × Store :=
  match findCountryById s dto.countryId with
  | none => (.error .notFound, s)
  | some _ =>
    match findProvinceByCoords s dto.latitude dto.longitude with
    | some existing => (.ok existing, s)
    | none =>
      match outcome with
      | .ok =>
        let p : Province := ⟨s.nextId, dto.name, dto.latitude, dto.longitude, dto.countryId⟩
        (.ok p, insertProvince s p)
      | .fail code raceView =>
        if code = ("23505") then
          match findProvinceByCoords raceView dto.latitude dto.longitude with
          | some p => (.ok p, raceView)
          | none => (.error .conflict, raceView)
        else (.error .internalError, raceView)

/-- Modelled from the spec: CitiesService.create (city.service.ts is absent
from the sources; only its unit tests are present).  Same resolve-or-create
protocol as for provinces, with the parent being a Province; the secondary
name-within-province collision is only logged (§4.1 step 5), so it has no
effect on the state or the result. -/
def CitiesService.create (dto : CreateCityDto) (outcome : InsertOutcome)
    (s : Store) : Except ApiError City × Store :=
  match findProvinceById s dto.provinceId with
  | none => (.error .notFound, s)
  | some _ =>
    match findCityByCoords s dto.latitude dto.longitude with
    | some existing => (.ok existing, s)
    | none =>
      match outcome with
      | .ok =>
        let c : City := ⟨s.nextId, dto.name, dto.latitude, dto.longitude, dto.provinceId⟩
        (.ok c, insertCity s c)
      | .fail code raceView =>
        if code = ("23505") then
          match findCityByCoords raceView dto.latitude dto.longitude with
          | some c => (.ok c, raceView)
          | none => (.error .conflict, raceView)
        else (.error .internalError, raceView)

/-- Modelled from the spec: CountriesService.findOne (source absent).  Point
lookup by id, NotFound when the row is absent. -/
def CountriesService.findOne (i : Nat) (s : Store) : Except ApiError Country :=
  match findCountryById s i with
  | some c => .ok c
  | none => .error .notFound

/-- Modelled from the spec: ProvincesService.findOne (source absent). -/
def ProvincesService.findOne (i : Nat) (s : Store) : Except ApiError Province :=
  match findProvinceById s i with
  | some p => .ok p
  | none => .error .notFound

/-- Modelled from the spec: CitiesService.findOne (source absent). -/
def CitiesService.findOne (i : Nat) (s : Store) : Except ApiError City :=
  match findCityById s i with
  | some c => .ok c
  | none => .error .notFound

/-- Success message returned by CountriesService.remove (wording from the unit
tests). -/
def CountriesService.removeMessage (i : Nat) : String :=
  ("Pais con ID ") ++ toString i ++ (" eliminado correctamente.")

/-- Success message returned by ProvincesService.remove (wording from the unit
tests). -/
def ProvincesService.removeMessage (i : Nat) : String :=
  ("Provincia con ID ") ++ toString i ++ (" eliminada correctamente.")

/-- Success message returned by CitiesService.remove (wording from the unit
tests). -/
def CitiesService.removeMessage (i : Nat) : String :=
  ("Ciudad con ID ") ++ toString i ++ (" eliminada correctamente.")

/-- Modelled from the spec: CountriesService.remove (source absent).  §4.2:
load the entity with its direct children; with at least one child province the
deletion fails Conflict and nothing is deleted; with no children the row is
deleted. -/
def CountriesService.remove (i : Nat) (s : Store) : Except ApiError String × Store :=
  match findCountryById s i with
  | none => (.error .notFound, s)
  | some c =>
    if s.provinces.any (fun p => p.countryId == c.id) then
      (.error .conflict, s)
    else
      (.ok (CountriesService.removeMessage i), deleteCountry s i)

/-- Modelled from the spec: ProvincesService.remove (source absent).  Children
are the cities referencing the province. -/
def ProvincesService.remove (i : Nat) (s : Store) : Except ApiError String × Store :=
  match findProvinceById s i with
  | none => (.error .notFound, s)
  | some p =>
    if s.cities.any (fun c => c.provinceId == p.id) then
      (.error .conflict, s)
    else
      (.ok (ProvincesService.removeMessage i), deleteProvince s i)

/-- Modelled from the spec: CitiesService.remove (source absent).  Children are
the persons referencing the city. -/
def CitiesService.remove (i : Nat) (s : Store) : Except ApiError String × Store :=
  match findCityById s i with
  | none => (.error .notFound, s)
  | some c =>
    if s.persons.any (fun q => q.cityId == some c.id) then
      (.error .conflict, s)
    else
      (.ok (CitiesService.removeMessage i), deleteCity s i)

/-- Modelled from the spec: CountriesService.updatePut (source absent).  §4.2:
re-run the name and code uniqueness probes excluding the entity's own row and
fail Conflict if another row claims the key; otherwise replace the row. -/
def CountriesService.updatePut (i : Nat) (dto : UpdatePutCountryDto)
    (s : Store) : Except ApiError Country × Store :=
  match findCountryById s i with
  | none => (.error .notFound, s)
  | some _old =>
    match s.countries.find? (fun c => c.name == dto.name && c.id != i) with
    | some _ => (.error .conflict, s)
    | none =>
      match dto.code.bind (fun cd => s.countries.find? (fun c => c.code == some cd && c.id != i)) with
      | some _ => (.error .conflict, s)
      | none =>
        let updated : Country := ⟨i, dto.name, dto.code⟩
        (.ok updated, saveCountry s updated)

/-- Modelled from the spec: CountriesService.updatePatch (source absent).
Uniqueness probes run only for the fields present in the PATCH body, excluding
the entity's own row; absent fields keep their previous value. -/
def CountriesService.updatePatch (i : Nat) (dto : UpdateCountryDto)
    (s : Store) : Except ApiError Country × Store :=
  match findCountryById s i with
  | none => (.error .notFound, s)
  | some old =>
    match dto.name.bind (fun nm => s.countries.find? (fun c => c.name == nm && c.id != i)) with
    | some _ => (.error .conflict, s)
    | none =>
      match dto.code.bind (fun cd => s.countries.find? (fun c => c.code == some cd && c.id != i)) with
      | some _ => (.error .conflict, s)
      | none =>
        let updated : Country :=
          ⟨i, dto.name.getD old.name,
           match dto.code with
           | some cd => some cd
           | none => old.code⟩
        (.ok updated, saveCountry s updated)

/-- Modelled from the spec: ProvincesService.updatePut (source absent).  §4.2:
validate the (possibly new) parent Country, re-run the coordinate uniqueness
probe excluding the entity's own row, Conflict if another row claims the key;
otherwise replace the row. -/
def ProvincesService.updatePut (i : Nat) (dto : UpdatePutProvinceDto)
    (s : Store) : Except ApiError Province × Store :=
  match findProvinceById s i with
  | none => (.error .notFound, s)
  | some _old =>
    match findCountryById s dto.countryId with
    | none => (.error .notFound, s)
    | some _ =>
      match s.provinces.find? (fun p => p.latitude == dto.latitude && p.longitude == dto.longitude && p.id != i) with
      | some _ => (.error .conflict, s)
      | none =>
        let updated : Province := ⟨i, dto.name, dto.latitude, dto.longitude, dto.countryId⟩
        (.ok updated, saveProvince s updated)

/-- Modelled from the spec: ProvincesService.updatePatch (source absent).  The
merged entity keeps the previous value of every absent field; a present parent
reference is validated, and the coordinate probe runs on the merged coordinate
pair excluding the entity's own row. -/
def ProvincesService.updatePatch (i : Nat) (dto : UpdateProvinceDto)
    (s : Store) : Except ApiError Province × Store :=
  match findProvinceById s i with
  | none => (.error .notFound, s)
  | some old =>
    let newLat := dto.latitude.getD old.latitude
    let newLng := dto.longitude.getD old.longitude
    let newCountryId := dto.countryId.getD old.countryId
    let proceed : Except ApiError Province × Store :=
      match s.provinces.find? (fun p => p.latitude == newLat && p.longitude == newLng && p.id != i) with
      | some _ => (.error .conflict, s)
      | none =>
        let updated : Province := ⟨i, dto.name.getD old.name, newLat, newLng, newCountryId⟩
        (.ok updated, saveProvince s updated)
    match dto.countryId with
    | some cid =>
      match findCountryById s cid with
      | none => (.error .notFound, s)
      | some _ => proceed
    | none => proceed

/-- Modelled from the spec: CitiesService.updatePut (source absent).  §4.2:
validate the (possibly new) parent Province, re-run the coordinate probe and
the name-within-province probe excluding the entity's own row, Conflict if
another row claims either key; otherwise replace the row. -/
def CitiesService.updatePut (i : Nat) (dto : UpdatePutCityDto)
    (s : Store) : Except ApiError City × Store :=
  match findCityById s i with
  | none => (.error .notFound, s)
  | some _old =>
    match findProvinceById s dto.provinceId with
    | none => (.error .notFound, s)
    | some _ =>
      match s.cities.find? (fun c => c.latitude == dto.latitude && c.longitude == dto.longitude && c.id != i) with
      | some _ => (.error .conflict, s)
      | none =>
        match s.cities.find? (fun c => c.name == dto.name && c.provinceId == dto.provinceId && c.id != i) with
        | some _ => (.error .conflict, s)
        | none =>
          let updated : City := ⟨i, dto.name, dto.latitude, dto.longitude, dto.provinceId⟩
          (.ok updated, saveCity s updated)

/-- Modelled from the spec: CitiesService.updatePatch (source absent).  The
merged entity keeps the previous value of every absent field; a present parent
reference is validated, and the coordinate probe runs on the merged coordinate
pair excluding the entity's own row. -/
def CitiesService.updatePatch (i : Nat) (dto : UpdateCityDto)
    (s : Store) : Except ApiError City × Store :=
  match findCityById s i with
  | none => (.error .notFound, s)
  | some old =>
    let newLat := dto.latitude.getD old.latitude
    let newLng := dto.longitude.getD old.longitude
    let newProvinceId := dto.provinceId.getD old.provinceId
    let proceed : Except ApiError City × Store :=
      match s.cities.find? (fun c => c.latitude == newLat && c.longitude == newLng && c.id != i) with
      | some _ => (.error .conflict, s)
      | none =>
        let updated : City := ⟨i, dto.name.getD old.name, newLat, newLng, newProvinceId⟩
        (.ok updated, saveCity s updated)
    match dto.provinceId with
    | some pid =>
      match findProvinceById s pid with
      | none => (.error .notFound, s)
      | some _ => proceed
    | none => proceed

/-- Modelled from the spec: PersonService.update, the PATCH path (source
absent; only its unit tests are present).  Partial merge: every field absent
from the payload keeps its previous value; the merged row replaces the old
row. -/
def PersonService.update (i : Nat) (dto : UpdatePatchPersonDto)
    (s : Store) : Except ApiError Person × Store :=
  match findPersonById s i with
  | none => (.error .notFound, s)
  | some old =>
    let merged : Person :=
      ⟨i, dto.firstName.getD old.firstName, dto.lastName.getD old.lastName,
       dto.email.getD old.email, dto.password.getD old.passwordHash,
       dto.role.getD old.role,
       match dto.cityId with
       | some c => some c
       | none => old.cityId⟩
    (.ok merged, savePerson s merged)

/-- The claims over which a session token is signed (§4.3): subject id, email
and role.  Signing itself is an external collaborator, so a token is modelled
by its claim set. -/
structure JwtPayload where
  sub : Nat
  email : String
  role : PersonRole
  deriving Repr, DecidableEq

/-- Modelled from the spec: AuthService.login (auth.service.ts is absent from
the sources; only its unit tests are present).  §4.3: look the Person up by
email, Unauthorized if absent; verify the password hash (the slow salted hash
comparison is an external collaborator, passed as `verify`), Unauthorized on
mismatch; on success issue a token over `{sub, email, role}`. -/
def AuthService.login (s : Store) (email rawPassword : String)
    (verify : String → String → Bool) : Except ApiError JwtPayload :=
  match findPersonByEmail s email with
  | none => .error .unauthorized
  | some p =>
    if verify rawPassword p.passwordHash then
      .ok ⟨p.id, p.email, p.role⟩
    else .error .unauthorized

/-- A presented bearer token as the guards see it: whether its signature
verifies, whether it is expired, and the role claim it carries. -/
structure AuthToken where
  signatureValid : Bool
  expired : Bool
  role : PersonRole
  deriving Repr, DecidableEq

/-- Modelled from the spec: the two-gate guard pipeline of §4.4 (the guard
sources are absent).  Gate (a): token presence and validity, Unauthorized if
absent, invalid or expired.  Gate (b): role membership in the endpoint's
allowed-role set, Forbidden otherwise.  Returns `none` when the request may
proceed to the handler. -/
def RoleGuard.gate (tok : Option AuthToken) (allowed : List PersonRole) : Option ApiError :=
  match tok with
  | none => some .unauthorized
  | some t =>
    if t.signatureValid && !t.expired then
      if allowed.contains t.role then none
      else some .forbidden
    else some .unauthorized

/-- Modelled from the spec: a mutating endpoint behind the guard pipeline
(§4.4, §9): the two gates run synchronously before the handler body, which is
reached only when both pass. -/
def handleMutating {α : Type} (tok : Option AuthToken) (allowed : List PersonRole)
    (handler : Store → Except ApiError α × Store) (s : Store) : Except ApiError α × Store :=
  match RoleGuard.gate tok allowed with
  | some e => (.error e, s)
  | none => handler s

/-- Modelled from the spec: the digit-string reading used by the duration
grammar of §4.3 (the controller source is absent): a non-empty all-digit
character list denotes its decimal value, anything else parses to nothing. -/
def parseDigits (cs : List Char) : Option Nat :=
  if cs ≠ [] ∧ cs.all Char.isDigit then
    some (cs.foldl (fun n c => n * 10 + (c.toNat - 48)) 0)
  else none

/-- Modelled from the spec: AuthController.parseExpiresIn (auth.controller.ts
is absent from the sources; only its unit tests are present).  §4.3: a duration
expression is a bare digit string or a digit string followed by one of the
units s, m, h, d; the result is milliseconds; anything unparseable falls back
to one hour. -/
def AuthController.parseExpiresIn (str : String) : Nat :=
  match parseDigits str.data with
  | some n => n * 1000
  | none =>
    match parseDigits str.data.dropLast, str.data.getLast? with
    | some n, some u =>
      if u = ('s') then n * 1000
      else if u = ('m') then n * 60000
      else if u = ('h') then n * 3600000
      else if u = ('d') then n * 86400000
      else 3600000
    | _, _ => 3600000

/-- A `find?` over a list returns the designated element when that element
satisfies the predicate and is the only one in the list that does. -/
theorem find_eq_some_of_unique {α : Type} (pred : α → Bool) (a : α) :
    ∀ l : List α, a ∈ l → pred a = true →
      (∀ b ∈ l, pred b = true → b = a) → l.find? pred = some a := by
  intro l
  induction l with
  | nil => intro h _ _; cases h
  | cons x xs ih =>
    intro ha hpa hu
    by_cases hx : pred x = true
    · have hxa : x = a := hu x (List.mem_cons_self x xs) hx
      rw [List.find?_cons_of_pos _ hx, hxa]
    · rw [List.find?_cons_of_neg _ hx]
      have ha' : a ∈ xs := by
        rcases List.mem_cons.mp ha with h | h
        · exact absurd (h ▸ hpa) hx
        · exact h
      exact ih ha' hpa (fun b hb hpb => hu b (List.mem_cons_of_mem _ hb) hpb)

/-- C1: for every Province or City creation request whose (latitude, longitude)
pair equals the coordinates of an already-stored row of the same entity type
(the stored rows being coordinate-unique, and the declared parent resolving),
the create operation returns that existing row — same id — and inserts no new
row (the store is unchanged), rather than failing. -/
theorem C1_create_idempotent_on_duplicate_coordinates :
    (∀ (s : Store) (dto : CreateProvinceDto) (out : InsertOutcome) (c : Country) (p : Province),
      (∀ a ∈ s.provinces, ∀ b ∈ s.provinces,
        a.latitude = b.latitude → a.longitude = b.longitude → a = b) →
      findCountryById s dto.countryId = some c →
      p ∈ s.provinces → p.latitude = dto.latitude → p.longitude = dto.longitude →
      ProvincesService.create dto out s = (Except.ok p, s)) ∧
    (∀ (s : Store) (dto : CreateCityDto) (out : InsertOutcome) (pr : Province) (c : City),
      (∀ a ∈ s.cities, ∀ b ∈ s.cities,
        a.latitude = b.latitude → a.longitude = b.longitude → a = b) →
      findProvinceById s dto.provinceId = some pr →
      c ∈ s.cities → c.latitude = dto.latitude → c.longitude = dto.longitude →
      CitiesService.create dto out s = (Except.ok c, s)) := by
  constructor
  · intro s dto out c p huniq hc hp hlat hlng
    have hfind : findProvinceByCoords s dto.latitude dto.longitude = some p := by
      unfold findProvinceByCoords
      refine find_eq_some_of_unique _ _ _ hp (by simp [hlat, hlng]) ?_
      intro b hb hpb
      simp only [Bool.and_eq_true, beq_iff_eq] at hpb
      exact huniq b hb p hp (hpb.1.trans hlat.symm) (hpb.2.trans hlng.symm)
    unfold ProvincesService.create
    rw [hc, hfind]
  · intro s dto out pr c huniq hpr hc hlat hlng
    have hfind : findCityByCoords s dto.latitude dto.longitude = some c := by
      unfold findCityByCoords
      refine find_eq_some_of_unique _ _ _ hc (by simp [hlat, hlng]) ?_
      intro b hb hpb
      simp only [Bool.and_eq_true, beq_iff_eq] at hpb
      exact huniq b hb c hc (hpb.1.trans hlat.symm) (hpb.2.trans hlng.symm)
    unfold CitiesService.create
    rw [hpr, hfind]

/-- Witness for C1 at concrete inputs: a second creation request carrying the
coordinates of an already-stored province (resp. city) yields that stored row
and leaves the store unchanged. -/
theorem C1_witness :
    ((⟨2, ("Cordoba"), -31, -64, 1⟩ : Province) ∈
      (⟨[⟨1, ("Argentina"), some ("AR")⟩], [⟨2, ("Cordoba"), -31, -64, 1⟩], [], [], 3⟩ : Store).provinces) ∧
    ProvincesService.create ⟨("Duplicada"), 1, -31, -64⟩ InsertOutcome.ok
        ⟨[⟨1, ("Argentina"), some ("AR")⟩], [⟨2, ("Cordoba"), -31, -64, 1⟩], [], [], 3⟩
      = (Except.ok ⟨2, ("Cordoba"), -31, -64, 1⟩,
         ⟨[⟨1, ("Argentina"), some ("AR")⟩], [⟨2, ("Cordoba"), -31, -64, 1⟩], [], [], 3⟩) ∧
    CitiesService.create ⟨("DuplicadaC"), -35, -58, 2⟩ InsertOutcome.ok
        ⟨[⟨1, ("Argentina"), some ("AR")⟩], [⟨2, ("BuenosAires"), -31, -64, 1⟩],
         [⟨3, ("LaPlata"), -35, -58, 2⟩], [], 4⟩
      = (Except.ok ⟨3, ("LaPlata"), -35, -58, 2⟩,
         ⟨[⟨1, ("Argentina"), some ("AR")⟩], [⟨2, ("BuenosAires"), -31, -64, 1⟩],
          [⟨3, ("LaPlata"), -35, -58, 2⟩], [], 4⟩) :=
  ⟨by decide,
   C1_create_idempotent_on_duplicate_coordinates.1 _ _ _ ⟨1, ("Argentina"), some ("AR")⟩ _
     (by decide) (by decide) (by decide) (by decide) (by decide),
   C1_create_idempotent_on_duplicate_coordinates.2 _ _ _ ⟨2, ("BuenosAires"), -31, -64, 1⟩ _
     (by decide) (by decide) (by decide) (by decide) (by decide)⟩

/-- C6: for every creation request whose declared parent id does not resolve to
an existing row — a Province with a non-existent countryId, a City with a
non-existent provinceId — the create fails with NotFound and no row is
persisted (the store is unchanged). -/
theorem C6_create_missing_parent_not_found :
    (∀ (s : Store) (dto : CreateProvinceDto) (out : InsertOutcome),
      findCountryById s dto.countryId = none →
      ProvincesService.create dto out s = (Except.error ApiError.notFound, s)) ∧
    (∀ (s : Store) (dto : CreateCityDto) (out : InsertOutcome),
      findProvinceById s dto.provinceId = none →
      CitiesService.create dto out s = (Except.error ApiError.notFound, s)) := by
  constructor
  · intro s dto out h
    unfold ProvincesService.create
    rw [h]
  · intro s dto out h
    unfold CitiesService.create
    rw [h]

/-- Witness for C6 at concrete inputs: creating a province (resp. city) under a
parent id that resolves to nothing fails NotFound and persists nothing. -/
theorem C6_witness :
    findCountryById (⟨[], [], [], [], 1⟩ : Store) 7 = none ∧
    ProvincesService.create ⟨("SantaFe"), 7, -32, -60⟩ InsertOutcome.ok ⟨[], [], [], [], 1⟩
      = (Except.error ApiError.notFound, ⟨[], [], [], [], 1⟩) ∧
    CitiesService.create ⟨("Rosario"), -32, -60, 9⟩ InsertOutcome.ok ⟨[], [], [], [], 1⟩
      = (Except.error ApiError.notFound, ⟨[], [], [], [], 1⟩) :=
  ⟨by decide,
   C6_create_missing_parent_not_found.1 _ _ _ (by decide),
   C6_create_missing_parent_not_found.2 _ _ _ (by decide)⟩

/-- C3: when the insert during entity creation fails with the storage layer's
unique-constraint violation (error code 23505), the service re-queries by the
same uniqueness key once: if the re-query finds a row, that row is returned to
the caller as success; if the re-query finds nothing, the operation fails with
Conflict.  Stated for Province and City creation. -/
theorem C3_unique_violation_recovery :
    (∀ (s raceView : Store) (dto : CreateProvinceDto) (c : Country) (p : Province),
      findCountryById s dto.countryId = some c →
      findProvinceByCoords s dto.latitude dto.longitude = none →
      findProvinceByCoords raceView dto.latitude dto.longitude = some p →
      ProvincesService.create dto (InsertOutcome.fail ("23505") raceView) s
        = (Except.ok p, raceView)) ∧
    (∀ (s raceView : Store) (dto : CreateProvinceDto) (c : Country),
      findCountryById s dto.countryId = some c →
      findProvinceByCoords s dto.latitude dto.longitude = none →
      findProvinceByCoords raceView dto.latitude dto.longitude = none →
      ProvincesService.create dto (InsertOutcome.fail ("23505") raceView) s
        = (Except.error ApiError.conflict, raceView)) ∧
    (∀ (s raceView : Store) (dto : CreateCityDto) (pr : Province) (c : City),
      findProvinceById s dto.provinceId = some pr →
      findCityByCoords s dto.latitude dto.longitude = none →
      findCityByCoords raceView dto.latitude dto.longitude = some c →
      CitiesService.create dto (InsertOutcome.fail ("23505") raceView) s
        = (Except.ok c, raceView)) ∧
    (∀ (s raceView : Store) (dto : CreateCityDto) (pr : Province),
      findProvinceById s dto.provinceId = some pr →
      findCityByCoords s dto.latitude dto.longitude = none →
      findCityByCoords raceView dto.latitude dto.longitude = none →
      CitiesService.create dto (InsertOutcome.fail ("23505") raceView) s
        = (Except.error ApiError.conflict, raceView)) := by
  refine ⟨?_, ?_, ?_, ?_⟩
  · intro s raceView dto c p h1 h2 h3
    unfold ProvincesService.create
    rw [h1, h2]
    simp [h3]
  · intro s raceView dto c h1 h2 h3
    unfold ProvincesService.create
    rw [h1, h2]
    simp [h3]
  · intro s raceView dto pr c h1 h2 h3
    unfold CitiesService.create
    rw [h1, h2]
    simp [h3]
  · intro s raceView dto pr h1 h2 h3
    unfold CitiesService.create
    rw [h1, h2]
    simp [h3]

/-- Witness for C3 at concrete inputs: a 23505-failed insert whose re-query
finds the concurrently created row returns that row; one whose re-query finds
nothing fails Conflict. -/
theorem C3_witness :
    ProvincesService.create ⟨("SantaFe"), 1, -32, -60⟩
        (InsertOutcome.fail ("23505") ⟨[⟨1, ("Argentina"), some ("AR")⟩], [⟨5, ("Ganadora"), -32, -60, 1⟩], [], [], 6⟩)
        ⟨[⟨1, ("Argentina"), some ("AR")⟩], [], [], [], 2⟩
      = (Except.ok ⟨5, ("Ganadora"), -32, -60, 1⟩,
         ⟨[⟨1, ("Argentina"), some ("AR")⟩], [⟨5, ("Ganadora"), -32, -60, 1⟩], [], [], 6⟩) ∧
    ProvincesService.create ⟨("SantaFe"), 1, -32, -60⟩
        (InsertOutcome.fail ("23505") ⟨[⟨1, ("Argentina"), some ("AR")⟩], [], [], [], 2⟩)
        ⟨[⟨1, ("Argentina"), some ("AR")⟩], [], [], [], 2⟩
      = (Except.error ApiError.conflict, ⟨[⟨1, ("Argentina"), some ("AR")⟩], [], [], [], 2⟩) ∧
    CitiesService.create ⟨("Rosario"), -32, -60, 2⟩
        (InsertOutcome.fail ("23505") ⟨[], [⟨2, ("SantaFe"), -32, -60, 1⟩], [⟨7, ("GanadoraC"), -32, -60, 2⟩], [], 8⟩)
        ⟨[], [⟨2, ("SantaFe"), -32, -60, 1⟩], [], [], 3⟩
      = (Except.ok ⟨7, ("GanadoraC"), -32, -60, 2⟩,
         ⟨[], [⟨2, ("SantaFe"), -32, -60, 1⟩], [⟨7, ("GanadoraC"), -32, -60, 2⟩], [], 8⟩) ∧
    CitiesService.create ⟨("Rosario"), -32, -60, 2⟩
        (InsertOutcome.fail ("23505") ⟨[], [⟨2, ("SantaFe"), -32, -60, 1⟩], [], [], 3⟩)
        ⟨[], [⟨2, ("SantaFe"), -32, -60, 1⟩], [], [], 3⟩
      = (Except.error ApiError.conflict, ⟨[], [⟨2, ("SantaFe"), -32, -60, 1⟩], [], [], 3⟩) :=
  ⟨C3_unique_violation_recovery.1 _ _ _ ⟨1, ("Argentina"), some ("AR")⟩ _
     (by decide) (by decide) (by decide),
   C3_unique_violation_recovery.2.1 _ _ _ ⟨1, ("Argentina"), some ("AR")⟩
     (by decide) (by decide) (by decide),
   C3_unique_violation_recovery.2.2.1 _ _ _ ⟨2, ("SantaFe"), -32, -60, 1⟩ _
     (by decide) (by decide) (by decide),
   C3_unique_violation_recovery.2.2.2 _ _ _ ⟨2, ("SantaFe"), -32, -60, 1⟩
     (by decide) (by decide) (by decide)⟩

/-- C4: a Country, Province or City that has at least one dependent child
(province, city or person respectively) fails removal with Conflict and stays
stored untouched (the repository delete is never reached); one with zero
children is removed successfully and is subsequently unresolvable by id. -/
theorem C4_remove_blocked_by_children_else_deletes :
    (∀ (s : Store) (i : Nat) (c : Country),
      findCountryById s i = some c →
      ((∃ p ∈ s.provinces, p.countryId = c.id) →
        CountriesService.remove i s = (Except.error ApiError.conflict, s)) ∧
      ((∀ p ∈ s.provinces, p.countryId ≠ c.id) →
        CountriesService.remove i s
          = (Except.ok (CountriesService.removeMessage i), deleteCountry s i) ∧
        CountriesService.findOne i (deleteCountry s i) = Except.error ApiError.notFound)) ∧
    (∀ (s : Store) (i : Nat) (p : Province),
      findProvinceById s i = some p →
      ((∃ c ∈ s.cities, c.provinceId = p.id) →
        ProvincesService.remove i s = (Except.error ApiError.conflict, s)) ∧
      ((∀ c ∈ s.cities, c.provinceId ≠ p.id) →
        ProvincesService.remove i s
          = (Except.ok (ProvincesService.removeMessage i), deleteProvince s i) ∧
        ProvincesService.findOne i (deleteProvince s i) = Except.error ApiError.notFound)) ∧
    (∀ (s : Store) (i : Nat) (c : City),
      findCityById s i = some c →
      ((∃ q ∈ s.persons, q.cityId = some c.id) →
        CitiesService.remove i s = (Except.error ApiError.conflict, s)) ∧
      ((∀ q ∈ s.persons, q.cityId ≠ some c.id) →
        CitiesService.remove i s
          = (Except.ok (CitiesService.removeMessage i), deleteCity s i) ∧
        CitiesService.findOne i (deleteCity s i) = Except.error ApiError.notFound)) := by
  refine ⟨?_, ?_, ?_⟩
  · intro s i c hc
    constructor
    · rintro ⟨p, hp, hpc⟩
      unfold CountriesService.remove
      rw [hc]
      have hany : s.provinces.any (fun p => p.countryId == c.id) = true := by
        rw [List.any_eq_true]
        exact ⟨p, hp, by simp [hpc]⟩
      simp [hany]
    · intro hnone
      have hany : s.provinces.any (fun p => p.countryId == c.id) = false := by
        rw [List.any_eq_false]
        intro x hx h
        exact hnone x hx (by simpa using h)
      constructor
      · unfold CountriesService.remove
        rw [hc]
        simp [hany]
      · unfold CountriesService.findOne findCountryById deleteCountry
        have hfind : (s.countries.filter (fun d => d.id != i)).find? (fun d => d.id == i) = none := by
          rw [List.find?_eq_none]
          intro x hx
          have hx2 := (List.mem_filter.mp hx).2
          simp only [bne_iff_ne, ne_eq] at hx2
          simp [hx2]
        rw [hfind]
  · intro s i p hp
    constructor
    · rintro ⟨c, hcm, hcp⟩
      unfold ProvincesService.remove
      rw [hp]
      have hany : s.cities.any (fun c => c.provinceId == p.id) = true := by
        rw [List.any_eq_true]
        exact ⟨c, hcm, by simp [hcp]⟩
      simp [hany]
    · intro hnone
      have hany : s.cities.any (fun c => c.provinceId == p.id) = false := by
        rw [List.any_eq_false]
        intro x hx h
        exact hnone x hx (by simpa using h)
      constructor
      · unfold ProvincesService.remove
        rw [hp]
        simp [hany]
      · unfold ProvincesService.findOne findProvinceById deleteProvince
        have hfind : (s.provinces.filter (fun q => q.id != i)).find? (fun q => q.id == i) = none := by
          rw [List.find?_eq_none]
          intro x hx
          have hx2 := (List.mem_filter.mp hx).2
          simp only [bne_iff_ne, ne_eq] at hx2
          simp [hx2]
        rw [hfind]
  · intro s i c hc
    constructor
    · rintro ⟨q, hqm, hqc⟩
      unfold CitiesService.remove
      rw [hc]
      have hany : s.persons.any (fun q => q.cityId == some c.id) = true := by
        rw [List.any_eq_true]
        exact ⟨q, hqm, by simp [hqc]⟩
      simp [hany]
    · intro hnone
      have hany : s.persons.any (fun q => q.cityId == some c.id) = false := by
        rw [List.any_eq_false]
        intro x hx h
        exact hnone x hx (by simpa using h)
      constructor
      · unfold CitiesService.remove
        rw [hc]
        simp [hany]
      · unfold CitiesService.findOne findCityById deleteCity
        have hfind : (s.cities.filter (fun d => d.id != i)).find? (fun d => d.id == i) = none := by
          rw [List.find?_eq_none]
          intro x hx
          have hx2 := (List.mem_filter.mp hx).2
          simp only [bne_iff_ne, ne_eq] at hx2
          simp [hx2]
        rw [hfind]

/-- Witness for C4 at concrete inputs: each of Country, Province and City fails
removal with Conflict while a child exists and is removed and unresolvable once
it has none. -/
theorem C4_witness :
    CountriesService.remove 1
        ⟨[⟨1, ("Argentina"), some ("AR")⟩], [⟨2, ("Cordoba"), -31, -64, 1⟩], [], [], 3⟩
      = (Except.error ApiError.conflict,
         ⟨[⟨1, ("Argentina"), some ("AR")⟩], [⟨2, ("Cordoba"), -31, -64, 1⟩], [], [], 3⟩) ∧
    (CountriesService.remove 1 ⟨[⟨1, ("Chile"), some ("CL")⟩], [], [], [], 2⟩
      = (Except.ok (CountriesService.removeMessage 1),
         deleteCountry ⟨[⟨1, ("Chile"), some ("CL")⟩], [], [], [], 2⟩ 1) ∧
     CountriesService.findOne 1 (deleteCountry ⟨[⟨1, ("Chile"), some ("CL")⟩], [], [], [], 2⟩ 1)
      = Except.error ApiError.notFound) ∧
    ProvincesService.remove 2
        ⟨[⟨1, ("Argentina"), some ("AR")⟩], [⟨2, ("SantaFe"), -32, -60, 1⟩],
         [⟨3, ("Rosario"), -33, -60, 2⟩], [], 4⟩
      = (Except.error ApiError.conflict,
         ⟨[⟨1, ("Argentina"), some ("AR")⟩], [⟨2, ("SantaFe"), -32, -60, 1⟩],
          [⟨3, ("Rosario"), -33, -60, 2⟩], [], 4⟩) ∧
    (ProvincesService.remove 2
        ⟨[⟨1, ("Argentina"), some ("AR")⟩], [⟨2, ("SantaFe"), -32, -60, 1⟩], [], [], 3⟩
      = (Except.ok (ProvincesService.removeMessage 2),
         deleteProvince ⟨[⟨1, ("Argentina"), some ("AR")⟩], [⟨2, ("SantaFe"), -32, -60, 1⟩], [], [], 3⟩ 2) ∧
     ProvincesService.findOne 2
        (deleteProvince ⟨[⟨1, ("Argentina"), some ("AR")⟩], [⟨2, ("SantaFe"), -32, -60, 1⟩], [], [], 3⟩ 2)
      = Except.error ApiError.notFound) ∧
    CitiesService.remove 3
        ⟨[], [], [⟨3, ("Rosario"), -33, -60, 2⟩],
         [⟨4, ("Ana"), ("Paz"), ("ana@mail.com"), ("h"), PersonRole.user, some 3⟩], 5⟩
      = (Except.error ApiError.conflict,
         ⟨[], [], [⟨3, ("Rosario"), -33, -60, 2⟩],
          [⟨4, ("Ana"), ("Paz"), ("ana@mail.com"), ("h"), PersonRole.user, some 3⟩], 5⟩) ∧
    (CitiesService.remove 3 ⟨[], [], [⟨3, ("Rosario"), -33, -60, 2⟩], [], 4⟩
      = (Except.ok (CitiesService.removeMessage 3),
         deleteCity ⟨[], [], [⟨3, ("Rosario"), -33, -60, 2⟩], [], 4⟩ 3) ∧
     CitiesService.findOne 3 (deleteCity ⟨[], [], [⟨3, ("Rosario"), -33, -60, 2⟩], [], 4⟩ 3)
      = Except.error ApiError.notFound) :=
  ⟨(C4_remove_blocked_by_children_else_deletes.1 _ 1 ⟨1, ("Argentina"), some ("AR")⟩
      (by decide)).1 (by decide),
   (C4_remove_blocked_by_children_else_deletes.1 _ 1 ⟨1, ("Chile"), some ("CL")⟩
      (by decide)).2 (by decide),
   (C4_remove_blocked_by_children_else_deletes.2.1 _ 2 ⟨2, ("SantaFe"), -32, -60, 1⟩
      (by decide)).1 (by decide),
   (C4_remove_blocked_by_children_else_deletes.2.1 _ 2 ⟨2, ("SantaFe"), -32, -60, 1⟩
      (by decide)).2 (by decide),
   (C4_remove_blocked_by_children_else_deletes.2.2 _ 3 ⟨3, ("Rosario"), -33, -60, 2⟩
      (by decide)).1 (by decide),
   (C4_remove_blocked_by_children_else_deletes.2.2 _ 3 ⟨3, ("Rosario"), -33, -60, 2⟩
      (by decide)).2 (by decide)⟩

/-- C5: every update, full or partial, that would set an entity's uniqueness
key to a value already held by a different row — Province or City coordinates,
or Country name — fails with Conflict, and the target entity's fields remain
unchanged: the store is returned untouched, the row replacement is never
reached. -/
theorem C5_update_conflict_on_taken_uniqueness_key :
    (∀ (s : Store) (i : Nat) (dto : UpdatePutProvinceDto) (old : Province) (c : Country) (q : Province),
      findProvinceById s i = some old →
      findCountryById s dto.countryId = some c →
      q ∈ s.provinces → q.id ≠ i → q.latitude = dto.latitude → q.longitude = dto.longitude →
      ProvincesService.updatePut i dto s = (Except.error ApiError.conflict, s)) ∧
    (∀ (s : Store) (i : Nat) (dto : UpdateProvinceDto) (old : Province) (q : Province) (la lo : Int),
      findProvinceById s i = some old →
      dto.countryId = none → dto.latitude = some la → dto.longitude = some lo →
      q ∈ s.provinces → q.id ≠ i → q.latitude = la → q.longitude = lo →
      ProvincesService.updatePatch i dto s = (Except.error ApiError.conflict, s)) ∧
    (∀ (s : Store) (i : Nat) (dto : UpdatePutCityDto) (old : City) (pr : Province) (q : City),
      findCityById s i = some old →
      findProvinceById s dto.provinceId = some pr →
      q ∈ s.cities → q.id ≠ i → q.latitude = dto.latitude → q.longitude = dto.longitude →
      CitiesService.updatePut i dto s = (Except.error ApiError.conflict, s)) ∧
    (∀ (s : Store) (i : Nat) (dto : UpdateCityDto) (old : City) (q : City) (la lo : Int),
      findCityById s i = some old →
      dto.provinceId = none → dto.latitude = some la → dto.longitude = some lo →
      q ∈ s.cities → q.id ≠ i → q.latitude = la → q.longitude = lo →
      CitiesService.updatePatch i dto s = (Except.error ApiError.conflict, s)) ∧
    (∀ (s : Store) (i : Nat) (dto : UpdatePutCountryDto) (old d : Country),
      findCountryById s i = some old →
      d ∈ s.countries → d.id ≠ i → d.name = dto.name →
      CountriesService.updatePut i dto s = (Except.error ApiError.conflict, s)) ∧
    (∀ (s : Store) (i : Nat) (dto : UpdateCountryDto) (old d : Country) (nm : String),
      findCountryById s i = some old →
      dto.name = some nm → d ∈ s.countries → d.id ≠ i → d.name = nm →
      CountriesService.updatePatch i dto s = (Except.error ApiError.conflict, s)) := by
  refine ⟨?_, ?_, ?_, ?_, ?_, ?_⟩
  · intro s i dto old c q hold hc hq hqi hqla hqlo
    simp only [ProvincesService.updatePut, hold, hc]
    split
    next r heq => rfl
    next heq =>
      have hq' := List.find?_eq_none.mp heq q hq
      exact absurd (by simp [hqla, hqlo, hqi]) hq'
  · intro s i dto old q la lo hold hcid hla hlo hq hqi hqla hqlo
    simp only [ProvincesService.updatePatch, hold, hcid, hla, hlo, Option.getD_some]
    split
    next r heq => rfl
    next heq =>
      have hq' := List.find?_eq_none.mp heq q hq
      exact absurd (by simp [hqla, hqlo, hqi]) hq'
  · intro s i dto old pr q hold hpr hq hqi hqla hqlo
    simp only [CitiesService.updatePut, hold, hpr]
    split
    next r heq => rfl
    next heq =>
      have hq' := List.find?_eq_none.mp heq q hq
      exact absurd (by simp [hqla, hqlo, hqi]) hq'
  · intro s i dto old q la lo hold hpid hla hlo hq hqi hqla hqlo
    simp only [CitiesService.updatePatch, hold, hpid, hla, hlo, Option.getD_some]
    split
    next r heq => rfl
    next heq =>
      have hq' := List.find?_eq_none.mp heq q hq
      exact absurd (by simp [hqla, hqlo, hqi]) hq'
  · intro s i dto old d hold hd hdi hdn
    simp only [CountriesService.updatePut, hold]
    split
    next r heq => rfl
    next heq =>
      have hd' := List.find?_eq_none.mp heq d hd
      exact absurd (by simp [hdn, hdi]) hd'
  · intro s i dto old d nm hold hname hd hdi hdn
    simp only [CountriesService.updatePatch, hold, hname, Option.some_bind]
    split
    next r heq => rfl
    next heq =>
      have hd' := List.find?_eq_none.mp heq d hd
      exact absurd (by simp [hdn, hdi]) hd'

/-- Witness for C5 at concrete inputs: moving province 2 onto province 9's
coordinates (PUT and PATCH), city 3 onto city 8's coordinates (PUT and PATCH),
and renaming country 1 to country 6's name (PUT and PATCH) all fail Conflict
with the store untouched. -/
theorem C5_witness :
    ProvincesService.updatePut 2 ⟨("Mover"), 1, -40, -70⟩
        ⟨[⟨1, ("Argentina"), some ("AR")⟩],
         [⟨2, ("SantaFe"), -32, -60, 1⟩, ⟨9, ("Chubut"), -40, -70, 1⟩], [], [], 10⟩
      = (Except.error ApiError.conflict,
         ⟨[⟨1, ("Argentina"), some ("AR")⟩],
          [⟨2, ("SantaFe"), -32, -60, 1⟩, ⟨9, ("Chubut"), -40, -70, 1⟩], [], [], 10⟩) ∧
    ProvincesService.updatePatch 2 ⟨none, none, some (-40), some (-70)⟩
        ⟨[⟨1, ("Argentina"), some ("AR")⟩],
         [⟨2, ("SantaFe"), -32, -60, 1⟩, ⟨9, ("Chubut"), -40, -70, 1⟩], [], [], 10⟩
      = (Except.error ApiError.conflict,
         ⟨[⟨1, ("Argentina"), some ("AR")⟩],
          [⟨2, ("SantaFe"), -32, -60, 1⟩, ⟨9, ("Chubut"), -40, -70, 1⟩], [], [], 10⟩) ∧
    CitiesService.updatePut 3 ⟨("MoverC"), -33, -61, 2⟩
        ⟨[], [⟨2, ("SantaFe"), -32, -60, 1⟩],
         [⟨3, ("Rosario"), -33, -60, 2⟩, ⟨8, ("Casilda"), -33, -61, 2⟩], [], 9⟩
      = (Except.error ApiError.conflict,
         ⟨[], [⟨2, ("SantaFe"), -32, -60, 1⟩],
          [⟨3, ("Rosario"), -33, -60, 2⟩, ⟨8, ("Casilda"), -33, -61, 2⟩], [], 9⟩) ∧
    CitiesService.updatePatch 3 ⟨none, some (-33), some (-61), none⟩
        ⟨[], [⟨2, ("SantaFe"), -32, -60, 1⟩],
         [⟨3, ("Rosario"), -33, -60, 2⟩, ⟨8, ("Casilda"), -33, -61, 2⟩], [], 9⟩
      = (Except.error ApiError.conflict,
         ⟨[], [⟨2, ("SantaFe"), -32, -60, 1⟩],
          [⟨3, ("Rosario"), -33, -60, 2⟩, ⟨8, ("Casilda"), -33, -61, 2⟩], [], 9⟩) ∧
    CountriesService.updatePut 1 ⟨("Brasil"), some ("AR")⟩
        ⟨[⟨1, ("Argentina"), some ("AR")⟩, ⟨6, ("Brasil"), some ("BR")⟩], [], [], [], 7⟩
      = (Except.error ApiError.conflict,
         ⟨[⟨1, ("Argentina"), some ("AR")⟩, ⟨6, ("Brasil"), some ("BR")⟩], [], [], [], 7⟩) ∧
    CountriesService.updatePatch 1 ⟨some ("Brasil"), none⟩
        ⟨[⟨1, ("Argentina"), some ("AR")⟩, ⟨6, ("Brasil"), some ("BR")⟩], [], [], [], 7⟩
      = (Except.error ApiError.conflict,
         ⟨[⟨1, ("Argentina"), some ("AR")⟩, ⟨6, ("Brasil"), some ("BR")⟩], [], [], [], 7⟩) :=
  ⟨C5_update_conflict_on_taken_uniqueness_key.1 _ 2 _ ⟨2, ("SantaFe"), -32, -60, 1⟩
     ⟨1, ("Argentina"), some ("AR")⟩ ⟨9, ("Chubut"), -40, -70, 1⟩
     (by decide) (by decide) (by decide) (by decide) (by decide) (by decide),
   C5_update_conflict_on_taken_uniqueness_key.2.1 _ 2 _ ⟨2, ("SantaFe"), -32, -60, 1⟩
     ⟨9, ("Chubut"), -40, -70, 1⟩ (-40) (-70)
     (by decide) (by decide) (by decide) (by decide) (by decide) (by decide) (by decide) (by decide),
   C5_update_conflict_on_taken_uniqueness_key.2.2.1 _ 3 _ ⟨3, ("Rosario"), -33, -60, 2⟩
     ⟨2, ("SantaFe"), -32, -60, 1⟩ ⟨8, ("Casilda"), -33, -61, 2⟩
     (by decide) (by decide) (by decide) (by decide) (by decide) (by decide),
   C5_update_conflict_on_taken_uniqueness_key.2.2.2.1 _ 3 _ ⟨3, ("Rosario"), -33, -60, 2⟩
     ⟨8, ("Casilda"), -33, -61, 2⟩ (-33) (-61)
     (by decide) (by decide) (by decide) (by decide) (by decide) (by decide) (by decide) (by decide),
   C5_update_conflict_on_taken_uniqueness_key.2.2.2.2.1 _ 1 _ ⟨1, ("Argentina"), some ("AR")⟩
     ⟨6, ("Brasil"), some ("BR")⟩ (by decide) (by decide) (by decide) (by decide),
   C5_update_conflict_on_taken_uniqueness_key.2.2.2.2.2 _ 1 _ ⟨1, ("Argentina"), some ("AR")⟩
     ⟨6, ("Brasil"), some ("BR")⟩ ("Brasil")
     (by decide) (by decide) (by decide) (by decide) (by decide)⟩

/-- C2 counterexample: after a successful create of the Country
`{name := Chile, code := CL}` from an empty store, a second identical create
request does not fail with Conflict — it succeeds and returns the already
stored row with the same id, leaving the store unchanged. -/
theorem C2_counterexample_duplicate_country_name_returns_existing :
    CountriesService.create ⟨("Chile"), some ("CL")⟩ InsertOutcome.ok ⟨[], [], [], [], 1⟩
      = (Except.ok ⟨1, ("Chile"), some ("CL")⟩,
         ⟨[⟨1, ("Chile"), some ("CL")⟩], [], [], [], 2⟩) ∧
    CountriesService.create ⟨("Chile"), some ("CL")⟩ InsertOutcome.ok
        ⟨[⟨1, ("Chile"), some ("CL")⟩], [], [], [], 2⟩
      = (Except.ok ⟨1, ("Chile"), some ("CL")⟩,
         ⟨[⟨1, ("Chile"), some ("CL")⟩], [], [], [], 2⟩) ∧
    (CountriesService.create ⟨("Chile"), some ("CL")⟩ InsertOutcome.ok
        ⟨[⟨1, ("Chile"), some ("CL")⟩], [], [], [], 2⟩).1
      ≠ Except.error ApiError.conflict := by
  refine ⟨rfl, rfl, ?_⟩
  intro h
  exact Except.noConfusion h

/-- C2 (amended): creating a Country whose name (or code) is already held by a
stored Country does not fail — the create returns the existing row, same id,
and inserts nothing (creation is idempotent on the name and code uniqueness
keys, unlike the Conflict answer of the Province and City full update). -/
theorem C2_amended_duplicate_country_create_idempotent :
    (∀ (s : Store) (dto : CreateCountryDto) (out : InsertOutcome) (c : Country),
      (∀ a ∈ s.countries, ∀ b ∈ s.countries, a.name = b.name → a = b) →
      c ∈ s.countries → c.name = dto.name →
      CountriesService.create dto out s = (Except.ok c, s)) ∧
    (∀ (s : Store) (dto : CreateCountryDto) (out : InsertOutcome) (c : Country) (cd : String),
      (∀ a ∈ s.countries, ∀ b ∈ s.countries, ∀ x, a.code = some x → b.code = some x → a = b) →
      findCountryByName s dto.name = none →
      c ∈ s.countries → c.code = some cd → dto.code = some cd →
      CountriesService.create dto out s = (Except.ok c, s)) := by
  constructor
  · intro s dto out c huniq hc hcn
    have hfind : findCountryByName s dto.name = some c := by
      unfold findCountryByName
      refine find_eq_some_of_unique _ _ _ hc (by simp [hcn]) ?_
      intro b hb hpb
      simp only [beq_iff_eq] at hpb
      exact huniq b hb c hc (hpb.trans hcn.symm)
    unfold CountriesService.create
    rw [hfind]
  · intro s dto out c cd huniq hnone hc hcc hdc
    have hfind : findCountryByCode s cd = some c := by
      unfold findCountryByCode
      refine find_eq_some_of_unique _ _ _ hc (by simp [hcc]) ?_
      intro b hb hpb
      simp only [beq_iff_eq] at hpb
      exact huniq b hb c hc cd hpb hcc
    unfold CountriesService.create
    rw [hnone, hdc]
    simp [hfind]

/-- Witness for the amended C2 at concrete inputs: creating over an existing
name returns the name-holder; creating with a fresh name over an existing code
returns the code-holder; the store is unchanged both times. -/
theorem C2_amended_witness :
    CountriesService.create ⟨("Chile"), some ("XX")⟩ InsertOutcome.ok
        ⟨[⟨1, ("Chile"), some ("CL")⟩, ⟨2, ("Peru"), some ("PE")⟩], [], [], [], 3⟩
      = (Except.ok ⟨1, ("Chile"), some ("CL")⟩,
         ⟨[⟨1, ("Chile"), some ("CL")⟩, ⟨2, ("Peru"), some ("PE")⟩], [], [], [], 3⟩) ∧
    CountriesService.create ⟨("Bolivia"), some ("PE")⟩ InsertOutcome.ok
        ⟨[⟨1, ("Chile"), some ("CL")⟩, ⟨2, ("Peru"), some ("PE")⟩], [], [], [], 3⟩
      = (Except.ok ⟨2, ("Peru"), some ("PE")⟩,
         ⟨[⟨1, ("Chile"), some ("CL")⟩, ⟨2, ("Peru"), some ("PE")⟩], [], [], [], 3⟩) :=
  ⟨C2_amended_duplicate_country_create_idempotent.1 _ _ _ ⟨1, ("Chile"), some ("CL")⟩
     (by decide) (by decide) (by decide),
   C2_amended_duplicate_country_create_idempotent.2 _ _ _ ⟨2, ("Peru"), some ("PE")⟩ ("PE")
     (by decide) (by decide) (by decide) (by decide) (by decide)⟩

/-- C7: login fails Unauthorized when no Person with the given email exists,
fails Unauthorized when the password hash does not verify, and on success
returns a token signed over claims containing the person's id (sub), email and
role. -/
theorem C7_login_contract :
    (∀ (s : Store) (email pw : String) (verify : String → String → Bool),
      findPersonByEmail s email = none →
      AuthService.login s email pw verify = Except.error ApiError.unauthorized) ∧
    (∀ (s : Store) (email pw : String) (verify : String → String → Bool) (p : Person),
      findPersonByEmail s email = some p →
      verify pw p.passwordHash = false →
      AuthService.login s email pw verify = Except.error ApiError.unauthorized) ∧
    (∀ (s : Store) (email pw : String) (verify : String → String → Bool) (p : Person),
      findPersonByEmail s email = some p →
      verify pw p.passwordHash = true →
      AuthService.login s email pw verify = Except.ok ⟨p.id, p.email, p.role⟩) := by
  refine ⟨?_, ?_, ?_⟩
  · intro s email pw verify h
    unfold AuthService.login
    rw [h]
  · intro s email pw verify p h hv
    unfold AuthService.login
    rw [h]
    simp [hv]
  · intro s email pw verify p h hv
    unfold AuthService.login
    rw [h]
    simp [hv]

/-- Witness for C7 at concrete inputs: unknown email and failed verification
both yield Unauthorized; a successful verification yields the token claims
`{sub, email, role}` of the stored person. -/
theorem C7_witness :
    AuthService.login ⟨[], [], [], [], 1⟩ ("test@example.com") ("pw") (fun a b => a == b)
      = Except.error ApiError.unauthorized ∧
    AuthService.login
        ⟨[], [], [], [⟨1, ("Test"), ("User"), ("test@example.com"), ("hashed-pw"), PersonRole.user, none⟩], 2⟩
        ("test@example.com") ("wrong-pw") (fun a b => a == b)
      = Except.error ApiError.unauthorized ∧
    AuthService.login
        ⟨[], [], [], [⟨1, ("Test"), ("User"), ("test@example.com"), ("hashed-pw"), PersonRole.user, none⟩], 2⟩
        ("test@example.com") ("hashed-pw") (fun a b => a == b)
      = Except.ok ⟨1, ("test@example.com"), PersonRole.user⟩ :=
  ⟨C7_login_contract.1 _ _ _ _ (by decide),
   C7_login_contract.2.1 _ _ _ _ ⟨1, ("Test"), ("User"), ("test@example.com"), ("hashed-pw"), PersonRole.user, none⟩
     (by decide) (by decide),
   C7_login_contract.2.2 _ _ _ _ ⟨1, ("Test"), ("User"), ("test@example.com"), ("hashed-pw"), PersonRole.user, none⟩
     (by decide) (by decide)⟩

/-- C8: on a mutating endpoint a request without a valid token is rejected
Unauthorized before any role check — for every allowed-role set and every
handler — and a request with a valid token whose role is not in the endpoint's
allowed-role set is rejected Forbidden; in both cases the handler body is never
reached (the result and state are independent of the handler) and the state is
unchanged. -/
theorem C8_guard_pipeline :
    (∀ (α : Type) (allowed : List PersonRole) (s : Store)
        (handler : Store → Except ApiError α × Store),
      handleMutating none allowed handler s = (Except.error ApiError.unauthorized, s)) ∧
    (∀ (α : Type) (t : AuthToken) (allowed : List PersonRole) (s : Store)
        (handler : Store → Except ApiError α × Store),
      t.signatureValid = false ∨ t.expired = true →
      handleMutating (some t) allowed handler s = (Except.error ApiError.unauthorized, s)) ∧
    (∀ (α : Type) (t : AuthToken) (allowed : List PersonRole) (s : Store)
        (handler : Store → Except ApiError α × Store),
      t.signatureValid = true → t.expired = false → allowed.contains t.role = false →
      handleMutating (some t) allowed handler s = (Except.error ApiError.forbidden, s)) := by
  refine ⟨?_, ?_, ?_⟩
  · intro α allowed s handler
    rfl
  · intro α t allowed s handler hor
    rcases hor with h | h
    · simp [handleMutating, RoleGuard.gate, h]
    · simp [handleMutating, RoleGuard.gate, h]
  · intro α t allowed s handler hsig hexp hrole
    have hmem : t.role ∉ allowed := by simpa using hrole
    simp [handleMutating, RoleGuard.gate, hsig, hexp, hmem]

/-- Witness for C8 at concrete inputs: a missing token and an
invalid-signature ADMIN token are both rejected 401 on an ADMIN-only endpoint,
and a valid USER token is rejected 403 there; the handler result never
appears. -/
theorem C8_witness :
    handleMutating (α := Nat) none [PersonRole.admin]
        (fun st => (Except.ok 7, st)) ⟨[], [], [], [], 1⟩
      = (Except.error ApiError.unauthorized, ⟨[], [], [], [], 1⟩) ∧
    handleMutating (α := Nat) (some ⟨false, false, PersonRole.admin⟩) [PersonRole.admin]
        (fun st => (Except.ok 7, st)) ⟨[], [], [], [], 1⟩
      = (Except.error ApiError.unauthorized, ⟨[], [], [], [], 1⟩) ∧
    handleMutating (α := Nat) (some ⟨true, false, PersonRole.user⟩) [PersonRole.admin]
        (fun st => (Except.ok 7, st)) ⟨[], [], [], [], 1⟩
      = (Except.error ApiError.forbidden, ⟨[], [], [], [], 1⟩) :=
  ⟨C8_guard_pipeline.1 Nat _ _ _,
   C8_guard_pipeline.2.1 Nat ⟨false, false, PersonRole.admin⟩ _ _ _ (Or.inl (by decide)),
   C8_guard_pipeline.2.2 Nat ⟨true, false, PersonRole.user⟩ _ _ _
     (by decide) (by decide) (by decide)⟩

/-- C9: parseExpiresIn maps a duration expression to milliseconds — a bare
numeric string yields n·1000, and the suffixes s, m, h, d multiply by 1000,
60000, 3600000 and 86400000 respectively — while every unparseable expression
yields exactly one hour (3600000 ms) instead of failing. -/
theorem C9_parseExpiresIn_contract :
    (∀ (str : String) (n : Nat), parseDigits str.data = some n →
      AuthController.parseExpiresIn str = n * 1000) ∧
    (∀ (str : String) (n : Nat) (u : Char), parseDigits str.data = none →
      parseDigits str.data.dropLast = some n → str.data.getLast? = some u →
      (u = ('s') → AuthController.parseExpiresIn str = n * 1000) ∧
      (u = ('m') → AuthController.parseExpiresIn str = n * 60000) ∧
      (u = ('h') → AuthController.parseExpiresIn str = n * 3600000) ∧
      (u = ('d') → AuthController.parseExpiresIn str = n * 86400000)) ∧
    (∀ str : String, parseDigits str.data = none →
      parseDigits str.data.dropLast = none →
      AuthController.parseExpiresIn str = 3600000) ∧
    (∀ (str : String) (n : Nat) (u : Char), parseDigits str.data = none →
      parseDigits str.data.dropLast = some n → str.data.getLast? = some u →
      u ≠ ('s') → u ≠ ('m') → u ≠ ('h') → u ≠ ('d') →
      AuthController.parseExpiresIn str = 3600000) := by
  refine ⟨?_, ?_, ?_, ?_⟩
  · intro str n h
    simp [AuthController.parseExpiresIn, h]
  · intro str n u h1 h2 h3
    refine ⟨?_, ?_, ?_, ?_⟩ <;> intro hb <;>
      simp [AuthController.parseExpiresIn, h1, h2, h3, hb]
  · intro str h1 h2
    simp [AuthController.parseExpiresIn, h1, h2]
  · intro str n u h1 h2 h3 hs hm hh hd
    simp [AuthController.parseExpiresIn, h1, h2, h3, hs, hm, hh, hd]

/-- Witness for C9 at concrete inputs, mirroring the unit tests of the
controller: a bare numeric string, every unit suffix, and unparseable
strings. -/
theorem C9_witness :
    AuthController.parseExpiresIn ("3600") = 3600000 ∧
    AuthController.parseExpiresIn ("45s") = 45000 ∧
    AuthController.parseExpiresIn ("5m") = 300000 ∧
    AuthController.parseExpiresIn ("2h") = 7200000 ∧
    AuthController.parseExpiresIn ("2d") = 172800000 ∧
    AuthController.parseExpiresIn ("invalid-string") = 3600000 ∧
    AuthController.parseExpiresIn ("5x") = 3600000 :=
  ⟨by have := C9_parseExpiresIn_contract.1 ("3600") 3600 (by decide); simpa using this,
   (C9_parseExpiresIn_contract.2.1 ("45s") 45 ('s') (by decide) (by decide) (by decide)).1 (by decide),
   (C9_parseExpiresIn_contract.2.1 ("5m") 5 ('m') (by decide) (by decide) (by decide)).2.1 (by decide),
   (C9_parseExpiresIn_contract.2.1 ("2h") 2 ('h') (by decide) (by decide) (by decide)).2.2.1 (by decide),
   (C9_parseExpiresIn_contract.2.1 ("2d") 2 ('d') (by decide) (by decide) (by decide)).2.2.2 (by decide),
   C9_parseExpiresIn_contract.2.2.1 ("invalid-string") (by decide) (by decide),
   C9_parseExpiresIn_contract.2.2.2 ("5x") 5 ('x') (by decide) (by decide) (by decide)
     (by decide) (by decide) (by decide) (by decide)⟩

/-- C10: for every partial update (PATCH) of a Country, Province, City or
Person that succeeds, every field not present in the update payload keeps its
previous value in the returned entity — which is also the row persisted in the
resulting store — and the id is unchanged. -/
theorem C10_patch_preserves_absent_fields :
    (∀ (s : Store) (i : Nat) (dto : UpdateCountryDto) (old p : Country) (s' : Store),
      findCountryById s i = some old →
      CountriesService.updatePatch i dto s = (Except.ok p, s') →
      p.id = old.id ∧
      (dto.name = none → p.name = old.name) ∧
      (dto.code = none → p.code = old.code) ∧
      p ∈ s'.countries) ∧
    (∀ (s : Store) (i : Nat) (dto : UpdateProvinceDto) (old p : Province) (s' : Store),
      findProvinceById s i = some old →
      ProvincesService.updatePatch i dto s = (Except.ok p, s') →
      p.id = old.id ∧
      (dto.name = none → p.name = old.name) ∧
      (dto.latitude = none → p.latitude = old.latitude) ∧
      (dto.longitude = none → p.longitude = old.longitude) ∧
      (dto.countryId = none → p.countryId = old.countryId) ∧
      p ∈ s'.provinces) ∧
    (∀ (s : Store) (i : Nat) (dto : UpdateCityDto) (old p : City) (s' : Store),
      findCityById s i = some old →
      CitiesService.updatePatch i dto s = (Except.ok p, s') →
      p.id = old.id ∧
      (dto.name = none → p.name = old.name) ∧
      (dto.latitude = none → p.latitude = old.latitude) ∧
      (dto.longitude = none → p.longitude = old.longitude) ∧
      (dto.provinceId = none → p.provinceId = old.provinceId) ∧
      p ∈ s'.cities) ∧
    (∀ (s : Store) (i : Nat) (dto : UpdatePatchPersonDto) (old p : Person) (s' : Store),
      findPersonById s i = some old →
      PersonService.update i dto s = (Except.ok p, s') →
      p.id = old.id ∧
      (dto.firstName = none → p.firstName = old.firstName) ∧
      (dto.lastName = none → p.lastName = old.lastName) ∧
      (dto.email = none → p.email = old.email) ∧
      (dto.password = none → p.passwordHash = old.passwordHash) ∧
      (dto.role = none → p.role = old.role) ∧
      (dto.cityId = none → p.cityId = old.cityId) ∧
      p ∈ s'.persons) := by
  refine ⟨?_, ?_, ?_, ?_⟩
  · intro s i dto old p s' hold hok
    have hid : old.id = i := by
      unfold findCountryById at hold
      have h2 := List.find?_some hold
      simpa using h2
    have hmem : old ∈ s.countries := by
      unfold findCountryById at hold
      exact List.mem_of_find?_eq_some hold
    simp only [CountriesService.updatePatch, hold] at hok
    split at hok
    · simp at hok
    · split at hok
      · simp at hok
      · simp only [Prod.mk.injEq, Except.ok.injEq] at hok
        obtain ⟨hp, hs⟩ := hok
        subst hp
        subst hs
        refine ⟨by simp [hid], fun h => by simp [h], fun h => by simp [h], ?_⟩
        simp only [saveCountry]
        exact List.mem_map.mpr ⟨old, hmem, by simp [hid]⟩
  · intro s i dto old p s' hold hok
    have hid : old.id = i := by
      unfold findProvinceById at hold
      have h2 := List.find?_some hold
      simpa using h2
    have hmem : old ∈ s.provinces := by
      unfold findProvinceById at hold
      exact List.mem_of_find?_eq_some hold
    simp only [ProvincesService.updatePatch, hold] at hok
    split at hok
    next cid heqc =>
      split at hok
      · simp at hok
      · split at hok
        · simp at hok
        · simp only [Prod.mk.injEq, Except.ok.injEq] at hok
          obtain ⟨hp, hs⟩ := hok
          subst hp
          subst hs
          refine ⟨by simp [hid], fun h => by simp [h], fun h => by simp [h],
                  fun h => by simp [h], fun h => by simp [heqc] at h, ?_⟩
          simp only [saveProvince]
          exact List.mem_map.mpr ⟨old, hmem, by simp [hid]⟩
    next heqc =>
      split at hok
      · simp at hok
      · simp only [Prod.mk.injEq, Except.ok.injEq] at hok
        obtain ⟨hp, hs⟩ := hok
        subst hp
        subst hs
        refine ⟨by simp [hid], fun h => by simp [h], fun h => by simp [h],
                fun h => by simp [h], fun h => by simp [h], ?_⟩
        simp only [saveProvince]
        exact List.mem_map.mpr ⟨old, hmem, by simp [hid]⟩
  · intro s i dto old p s' hold hok
    have hid : old.id = i := by
      unfold findCityById at hold
      have h2 := List.find?_some hold
      simpa using h2
    have hmem : old ∈ s.cities := by
      unfold findCityById at hold
      exact List.mem_of_find?_eq_some hold
    simp only [CitiesService.updatePatch, hold] at hok
    split at hok
    next pid heqp =>
      split at hok
      · simp at hok
      · split at hok
        · simp at hok
        · simp only [Prod.mk.injEq, Except.ok.injEq] at hok
          obtain ⟨hp, hs⟩ := hok
          subst hp
          subst hs
          refine ⟨by simp [hid], fun h => by simp [h], fun h => by simp [h],
                  fun h => by simp [h], fun h => by simp [heqp] at h, ?_⟩
          simp only [saveCity]
          exact List.mem_map.mpr ⟨old, hmem, by simp [hid]⟩
    next heqp =>
      split at hok
      · simp at hok
      · simp only [Prod.mk.injEq, Except.ok.injEq] at hok
        obtain ⟨hp, hs⟩ := hok
        subst hp
        subst hs
        refine ⟨by simp [hid], fun h => by simp [h], fun h => by simp [h],
                fun h => by simp [h], fun h => by simp [h], ?_⟩
        simp only [saveCity]
        exact List.mem_map.mpr ⟨old, hmem, by simp [hid]⟩
  · intro s i dto old p s' hold hok
    have hid : old.id = i := by
      unfold findPersonById at hold
      have h2 := List.find?_some hold
      simpa using h2
    have hmem : old ∈ s.persons := by
      unfold findPersonById at hold
      exact List.mem_of_find?_eq_some hold
    simp only [PersonService.update, hold] at hok
    simp only [Prod.mk.injEq, Except.ok.injEq] at hok
    obtain ⟨hp, hs⟩ := hok
    subst hp
    subst hs
    refine ⟨by simp [hid], fun h => by simp [h], fun h => by simp [h], fun h => by simp [h],
            fun h => by simp [h], fun h => by simp [h], fun h => by simp [h], ?_⟩
    simp only [savePerson]
    exact List.mem_map.mpr ⟨old, hmem, by simp [hid]⟩

/-- Witness for C10 at concrete inputs: name-only patches of a country, a
province, a city and a first-name-only patch of a person leave the absent
fields — code, coordinates, last name — unchanged. -/
theorem C10_witness :
    ((⟨1, ("Argentina2"), some ("AR")⟩ : Country).code
      = (⟨1, ("Argentina"), some ("AR")⟩ : Country).code) ∧
    ((⟨2, ("SantaFe2"), -32, -60, 1⟩ : Province).latitude
      = (⟨2, ("SantaFe"), -32, -60, 1⟩ : Province).latitude) ∧
    ((⟨2, ("SantaFe2"), -32, -60, 1⟩ : Province).longitude
      = (⟨2, ("SantaFe"), -32, -60, 1⟩ : Province).longitude) ∧
    ((⟨3, ("Rosario2"), -33, -60, 2⟩ : City).latitude
      = (⟨3, ("Rosario"), -33, -60, 2⟩ : City).latitude) ∧
    ((⟨4, ("Jane"), ("Paz"), ("ana@mail.com"), ("h"), PersonRole.user, none⟩ : Person).lastName
      = (⟨4, ("Ana"), ("Paz"), ("ana@mail.com"), ("h"), PersonRole.user, none⟩ : Person).lastName) :=
  ⟨(C10_patch_preserves_absent_fields.1 ⟨[⟨1, ("Argentina"), some ("AR")⟩], [], [], [], 2⟩ 1
      ⟨some ("Argentina2"), none⟩ ⟨1, ("Argentina"), some ("AR")⟩
      ⟨1, ("Argentina2"), some ("AR")⟩ ⟨[⟨1, ("Argentina2"), some ("AR")⟩], [], [], [], 2⟩
      (by decide) (by rfl)).2.2.1 rfl,
   (C10_patch_preserves_absent_fields.2.1
      ⟨[⟨1, ("Argentina"), some ("AR")⟩], [⟨2, ("SantaFe"), -32, -60, 1⟩], [], [], 3⟩ 2
      ⟨some ("SantaFe2"), none, none, none⟩ ⟨2, ("SantaFe"), -32, -60, 1⟩
      ⟨2, ("SantaFe2"), -32, -60, 1⟩
      ⟨[⟨1, ("Argentina"), some ("AR")⟩], [⟨2, ("SantaFe2"), -32, -60, 1⟩], [], [], 3⟩
      (by decide) (by rfl)).2.2.1 rfl,
   (C10_patch_preserves_absent_fields.2.1
      ⟨[⟨1, ("Argentina"), some ("AR")⟩], [⟨2, ("SantaFe"), -32, -60, 1⟩], [], [], 3⟩ 2
      ⟨some ("SantaFe2"), none, none, none⟩ ⟨2, ("SantaFe"), -32, -60, 1⟩
      ⟨2, ("SantaFe2"), -32, -60, 1⟩
      ⟨[⟨1, ("Argentina"), some ("AR")⟩], [⟨2, ("SantaFe2"), -32, -60, 1⟩], [], [], 3⟩
      (by decide) (by rfl)).2.2.2.1 rfl,
   (C10_patch_preserves_absent_fields.2.2.1
      ⟨[], [⟨2, ("SantaFe"), -32, -60, 1⟩], [⟨3, ("Rosario"), -33, -60, 2⟩], [], 4⟩ 3
      ⟨some ("Rosario2"), none, none, none⟩ ⟨3, ("Rosario"), -33, -60, 2⟩
      ⟨3, ("Rosario2"), -33, -60, 2⟩
      ⟨[], [⟨2, ("SantaFe"), -32, -60, 1⟩], [⟨3, ("Rosario2"), -33, -60, 2⟩], [], 4⟩
      (by decide) (by rfl)).2.2.1 rfl,
   (C10_patch_preserves_absent_fields.2.2.2
      ⟨[], [], [], [⟨4, ("Ana"), ("Paz"), ("ana@mail.com"), ("h"), PersonRole.user, none⟩], 5⟩ 4
      ⟨some ("Jane"), none, none, none, none, none⟩
      ⟨4, ("Ana"), ("Paz"), ("ana@mail.com"), ("h"), PersonRole.user, none⟩
      ⟨4, ("Jane"), ("Paz"), ("ana@mail.com"), ("h"), PersonRole.user, none⟩
      ⟨[], [], [], [⟨4, ("Jane"), ("Paz"), ("ana@mail.com"), ("h"), PersonRole.user, none⟩], 5⟩
      (by decide) (by rfl)).2.2.1 rfl⟩
